import Mathlib

/-!
# Space shooter: the per-frame simulation of `src/pages/index.js`

A shallow embedding of the `gameLoop` callback of `src/pages/index.js` and of the
part of the browser it talks to (animation-frame scheduling, the React state
setters).  JavaScript numbers are modelled in exact arithmetic as rationals.
Canvas drawing calls have no effect on the game state and are left out.
`Math.random()` is modelled by a stream `rand : Nat → ℚ` together with the index
of the next draw.
-/

namespace Shooter

/-! ## Data model (`gameStateRef`, lines 8-20) -/

/-- The player rectangle, `game.player`. -/
structure Player where
  x : ℚ
  y : ℚ
  width : ℚ
  height : ℚ
  speed : ℚ
  deriving DecidableEq, Repr

/-- An element of `game.bullets` (object literal of lines 124-130). -/
structure Bullet where
  x : ℚ
  y : ℚ
  width : ℚ
  height : ℚ
  speed : ℚ
  deriving DecidableEq, Repr

/-- An element of `game.enemies` (object literal of lines 137-144).  The colour
string of the source is determined by its hue, which is what is kept here. -/
structure Enemy where
  x : ℚ
  y : ℚ
  width : ℚ
  height : ℚ
  speed : ℚ
  color : ℚ
  deriving DecidableEq, Repr

/-- An element of `game.particles` (object literal of lines 171-178). -/
structure Particle where
  x : ℚ
  y : ℚ
  vx : ℚ
  vy : ℚ
  life : ℚ
  color : ℚ
  deriving DecidableEq, Repr

/-- The canvas dimensions read by the loop (`canvas.width`, `canvas.height`). -/
structure Canvas where
  width : ℚ
  height : ℚ
  deriving DecidableEq, Repr

/-- The mutable object `gameStateRef.current`, without `canvas` and `ctx`. -/
structure Game where
  player : Player
  bullets : List Bullet
  enemies : List Enemy
  particles : List Particle
  score : ℚ
  lastShot : ℚ
  lastEnemy : ℚ
  touchX : Option ℚ
  animationId : Option Nat
  deriving DecidableEq, Repr

/-- Calls made by the loop to the React state setters. -/
inductive UiCall where
  | setScore (v : ℚ)
  | setGameOver (b : Bool)
  | setStarted (b : Bool)
  deriving DecidableEq, Repr

/-- The host side of one tick: the animation-frame requests still pending, the
next request identifier the browser hands out, the setter calls made so far and
the index of the next `Math.random()` draw. -/
structure Host where
  pending : List Nat
  nextId : Nat
  calls : List UiCall
  rng : Nat
  deriving DecidableEq, Repr

/-- The browser's `requestAnimationFrame`: a fresh identifier is returned and
recorded as pending. -/
def requestAnimationFrame (h : Host) : Nat × Host :=
  (h.nextId, { h with pending := h.pending ++ [h.nextId], nextId := h.nextId + 1 })

/-- The browser's `cancelAnimationFrame`: the request with this identifier, if
still pending, is dropped; `null` cancels nothing. -/
def cancelAnimationFrame (id : Option Nat) (h : Host) : Host :=
  match id with
  | none => h
  | some i => { h with pending := h.pending.filter (fun j => j != i) }

/-! ## Update player position (lines 114-120) -/

/-- Lines 115-120: damped pursuit of `touchX`, then the clamp. -/
def updatePlayer (canvas : Canvas) (g : Game) : Game :=
  match g.touchX with
  | none => g
  | some touchX =>
    let targetX := touchX - g.player.width / 2
    let dx := targetX - g.player.x
    let x1 := g.player.x + dx * (15 / 100)
    { g with player := { g.player with x := max 0 (min (canvas.width - g.player.width) x1) } }

/-! ## Auto shoot bullets (lines 122-132) -/

/-- The bullet pushed at lines 124-130. -/
def newBullet (p : Player) : Bullet :=
  { x := p.x + p.width / 2 - 3, y := p.y, width := 6, height := 20, speed := 10 }

/-- Lines 123-132. -/
def autoShoot (timestamp : ℚ) (g : Game) : Game :=
  if timestamp - g.lastShot > 200 then
    { g with bullets := g.bullets ++ [newBullet g.player], lastShot := timestamp }
  else g

/-! ## Spawn enemies (lines 134-146) -/

/-- The enemy pushed at lines 136-144; the four draws are `size`, `x`, `speed`
and the hue, in the order the source evaluates them. -/
def newEnemy (canvas : Canvas) (rand : Nat → ℚ) (i : Nat) : Enemy :=
  let size := 30 + rand i * 30
  { x := rand (i + 1) * (canvas.width - size), y := -size, width := size, height := size,
    speed := 2 + rand (i + 2) * 3, color := rand (i + 3) * 360 }

/-- Lines 135-146. -/
def spawnEnemies (canvas : Canvas) (rand : Nat → ℚ) (timestamp : ℚ) (s : Game × Host) :
    Game × Host :=
  if timestamp - s.1.lastEnemy > 1000 then
    ({ s.1 with enemies := s.1.enemies ++ [newEnemy canvas rand s.2.rng],
                lastEnemy := timestamp },
     { s.2 with rng := s.2.rng + 4 })
  else s

/-! ## Update bullets, enemies (lines 148-158) -/

/-- Line 150: `bullet.y -= bullet.speed`. -/
def moveBullet (bullet : Bullet) : Bullet :=
  { bullet with y := bullet.y - bullet.speed }

/-- The callback of `game.bullets.filter` (lines 149-152), element by element. -/
def updateBullets : List Bullet → List Bullet
  | [] => []
  | bullet :: rest =>
    let moved := moveBullet bullet
    if moved.y > -moved.height then moved :: updateBullets rest else updateBullets rest

/-- Line 156: `enemy.y += enemy.speed`. -/
def moveEnemy (enemy : Enemy) : Enemy :=
  { enemy with y := enemy.y + enemy.speed }

/-- The callback of `game.enemies.filter` (lines 155-158), element by element. -/
def updateEnemies (canvas : Canvas) : List Enemy → List Enemy
  | [] => []
  | enemy :: rest =>
    let moved := moveEnemy enemy
    if moved.y < canvas.height + moved.height then moved :: updateEnemies canvas rest
    else updateEnemies canvas rest

/-! ## Collision detection (lines 160-187) -/

/-- The condition of lines 163-168. -/
def hits (bullet : Bullet) (enemy : Enemy) : Bool :=
  decide (bullet.x < enemy.x + enemy.width) &&
  decide (bullet.x + bullet.width > enemy.x) &&
  decide (bullet.y < enemy.y + enemy.height) &&
  decide (bullet.y + bullet.height > enemy.y)

/-- The fifteen particles pushed by the loop of lines 170-179; particle `i`
takes draws `r + 2 * i` and `r + 2 * i + 1`. -/
def burst (enemy : Enemy) (rand : Nat → ℚ) (r : Nat) : List Particle :=
  (List.range 15).map fun i =>
    { x := enemy.x + enemy.width / 2, y := enemy.y + enemy.height / 2,
      vx := (rand (r + 2 * i) - 1 / 2) * 8, vy := (rand (r + 2 * i + 1) - 1 / 2) * 8,
      life := 1, color := enemy.color }

/-- The body of the inner callback (lines 163-185) for a bullet value `bullet`
visited at index `bIndex` and the enemy found at index `eIndex`.
`splice(i, 1)` is `List.eraseIdx`: it removes whatever stands at index `i` at
that moment and nothing when `i` is past the end. -/
def onPair (rand : Nat → ℚ) (bullet : Bullet) (bIndex : Nat) (enemy : Enemy) (eIndex : Nat)
    (s : Game × Host) : Game × Host :=
  if hits bullet enemy then
    ({ s.1 with particles := s.1.particles ++ burst enemy rand s.2.rng,
                bullets := s.1.bullets.eraseIdx bIndex,
                enemies := s.1.enemies.eraseIdx eIndex,
                score := s.1.score + 10 },
     { s.2 with rng := s.2.rng + 30,
                calls := s.2.calls ++ [UiCall.setScore (s.1.score + 10)] })
  else s

/-- The loop of `game.enemies.forEach` (line 162): `n` indices are still to be
visited, starting at `eIndex`; the bound was fixed when the loop started and an
index that is no longer in the array is passed over. -/
def enemiesForEach (rand : Nat → ℚ) (bullet : Bullet) (bIndex : Nat) :
    Nat → Nat → Game × Host → Game × Host
  | 0, _, s => s
  | n + 1, eIndex, s =>
    match s.1.enemies[eIndex]? with
    | none => enemiesForEach rand bullet bIndex n (eIndex + 1) s
    | some enemy =>
      enemiesForEach rand bullet bIndex n (eIndex + 1) (onPair rand bullet bIndex enemy eIndex s)

/-- The loop of `game.bullets.forEach` (line 161), in the same style. -/
def bulletsForEach (rand : Nat → ℚ) : Nat → Nat → Game × Host → Game × Host
  | 0, _, s => s
  | n + 1, bIndex, s =>
    match s.1.bullets[bIndex]? with
    | none => bulletsForEach rand n (bIndex + 1) s
    | some bullet =>
      bulletsForEach rand n (bIndex + 1)
        (enemiesForEach rand bullet bIndex s.1.enemies.length 0 s)

/-- Lines 161-187: the bullet-enemy collision pass. -/
def collisionPass (rand : Nat → ℚ) (s : Game × Host) : Game × Host :=
  bulletsForEach rand s.1.bullets.length 0 s

/-! ## Check player collision with enemies (lines 189-201) -/

/-- The condition of lines 191-196. -/
def playerHits (p : Player) (enemy : Enemy) : Bool :=
  decide (p.x < enemy.x + enemy.width) &&
  decide (p.x + p.width > enemy.x) &&
  decide (p.y < enemy.y + enemy.height) &&
  decide (p.y + p.height > enemy.y)

/-- The callback of line 190 run over the enemies in order; nothing in it
changes `game`, so the list is the one the loop started with. -/
def playerCollision (g : Game) : List Enemy → Host → Host
  | [], h => h
  | enemy :: rest, h =>
    if playerHits g.player enemy then
      playerCollision g rest
        (cancelAnimationFrame g.animationId
          { h with calls := h.calls ++ [UiCall.setGameOver true, UiCall.setStarted false] })
    else playerCollision g rest h

/-! ## Update particles (lines 203-209) -/

/-- Lines 205-207: the particle drifts and its `life` drops by 0.02. -/
def moveParticle (p : Particle) : Particle :=
  { p with x := p.x + p.vx, y := p.y + p.vy, life := p.life - 2 / 100 }

/-- The callback of `game.particles.filter` (lines 204-209), element by element. -/
def updateParticles : List Particle → List Particle
  | [] => []
  | p :: rest =>
    let moved := moveParticle p
    if moved.life > 0 then moved :: updateParticles rest else updateParticles rest

/-! ## The tick (lines 99-252) -/

/-- Lines 114-158 of a call of `gameLoop(timestamp)`: everything up to the
bullet-enemy collision pass. -/
def beforeCollision (canvas : Canvas) (rand : Nat → ℚ) (timestamp : ℚ) (s : Game × Host) :
    Game × Host :=
  let g1 := autoShoot timestamp (updatePlayer canvas s.1)
  let s2 := spawnEnemies canvas rand timestamp (g1, s.2)
  let g3 : Game := { s2.1 with bullets := updateBullets s2.1.bullets }
  let g4 : Game := { g3 with enemies := updateEnemies canvas g3.enemies }
  (g4, s2.2)

/-- Lines 114-187 of a call of `gameLoop(timestamp)`: the state right after the
bullet-enemy collision pass. -/
def afterCollision (canvas : Canvas) (rand : Nat → ℚ) (timestamp : ℚ) (s : Game × Host) :
    Game × Host :=
  collisionPass rand (beforeCollision canvas rand timestamp s)

/-- One call of `gameLoop(timestamp)`. -/
def gameLoop (canvas : Canvas) (rand : Nat → ℚ) (timestamp : ℚ) (s : Game × Host) :
    Game × Host :=
  let s5 := afterCollision canvas rand timestamp s
  let h6 := playerCollision s5.1 s5.1.enemies s5.2
  let g7 : Game := { s5.1 with particles := updateParticles s5.1.particles }
  let r := requestAnimationFrame h6
  ({ g7 with animationId := some r.1 }, r.2)

/-- The setter calls made by one call of `gameLoop(timestamp)`: what the tick
added to the calls made before it. -/
def tickCalls (canvas : Canvas) (rand : Nat → ℚ) (timestamp : ℚ) (s : Game × Host) :
    List UiCall :=
  (gameLoop canvas rand timestamp s).2.calls.drop s.2.calls.length

/-- The object of lines 8-20 after `resize()` (lines 29-34) has placed the
player. -/
def initialGame (canvas : Canvas) : Game :=
  { player := { x := canvas.width / 2 - 40 / 2, y := canvas.height - 100, width := 40,
                height := 40, speed := 8 },
    bullets := [], enemies := [], particles := [], score := 0, lastShot := 0, lastEnemy := 0,
    touchX := none, animationId := none }

/-- A run of ticks: the states after each tick, given the canvas, the random
stream and the timestamp of each. -/
def runTicks : List (Canvas × (Nat → ℚ) × ℚ) → Game × Host → List (Game × Host)
  | [], s => [s]
  | (canvas, rand, timestamp) :: rest, s =>
    s :: runTicks rest (gameLoop canvas rand timestamp s)

/-! ## Concrete states used below -/

/-- A 400 by 800 canvas. -/
def canvas400 : Canvas := { width := 400, height := 800 }

/-- The fresh game on the 400 by 800 canvas with the player moved to `x` and
the pointer at `touchX`. -/
def gameAt (x : ℚ) (touchX : ℚ) : Game :=
  { initialGame canvas400 with
    player := { (initialGame canvas400).player with x := x }, touchX := some touchX }

/-- The host while the callback with identifier 1 is running: that request is
no longer pending and the next identifier is 2. -/
def host0 : Host := { pending := [], nextId := 2, calls := [], rng := 0 }

/-- An enemy that reaches the player (at `x = 180`, `y = 700`) on its next move. -/
def crashEnemy : Enemy := { x := 185, y := 680, width := 30, height := 30, speed := 3, color := 0 }

/-- A running game whose only enemy is about to touch the player. -/
def crashGame : Game :=
  { initialGame canvas400 with enemies := [crashEnemy], animationId := some 1 }

/-- The older of two bullets fired 13 frames apart by a player standing still. -/
def bulletHigh : Bullet := { x := 197, y := 370, width := 6, height := 20, speed := 10 }

/-- The younger of the two bullets. -/
def bulletLow : Bullet := { x := 197, y := 500, width := 6, height := 20, speed := 10 }

/-- The older enemy, lower on the screen; it overlaps `bulletLow` only. -/
def enemyLow : Enemy := { x := 190, y := 478, width := 30, height := 30, speed := 2, color := 0 }

/-- The younger enemy, higher on the screen; it overlaps `bulletHigh` only. -/
def enemyHigh : Enemy :=
  { x := 180, y := 344, width := 36, height := 36, speed := 2, color := 120 }

/-- The state before a collision pass in which each bullet overlaps one enemy. -/
def skipGame : Game :=
  { initialGame canvas400 with
    bullets := [bulletHigh, bulletLow], enemies := [enemyLow, enemyHigh], animationId := some 1 }

/-- A bullet that overlaps both `enemyA` and `enemyC`. -/
def bulletA : Bullet := { x := 197, y := 410, width := 6, height := 20, speed := 10 }

/-- A bullet further down that overlaps no enemy. -/
def bulletB : Bullet := { x := 197, y := 540, width := 6, height := 20, speed := 10 }

/-- The oldest enemy, a slow one. -/
def enemyA : Enemy := { x := 190, y := 382, width := 30, height := 30, speed := 2, color := 0 }

/-- An enemy far to the left of both bullets. -/
def enemyB : Enemy := { x := 20, y := 395, width := 40, height := 40, speed := 3, color := 120 }

/-- The youngest enemy, a fast one that has caught up with `enemyA`. -/
def enemyC : Enemy :=
  { x := 175, y := 1883 / 5, width := 35, height := 35, speed := 49 / 10, color := 240 }

/-- The state before a collision pass in which one bullet overlaps two enemies. -/
def doubleGame : Game :=
  { initialGame canvas400 with
    bullets := [bulletA, bulletB], enemies := [enemyA, enemyB, enemyC], animationId := some 1 }

/-! ## The collision pass: what it can change -/

/-- What a stretch of the collision pass may change: `k` enemies are gone, and
with them come `15 * k` particles, `10 * k` points and only `setScore` calls. -/
structure PassRel (s t : Game × Host) : Prop where
  removed : ∃ k : ℕ, t.1.enemies.length + k = s.1.enemies.length ∧
    t.1.particles.length = s.1.particles.length + 15 * k ∧
    t.1.score = s.1.score + 10 * (k : ℚ)
  player : t.1.player = s.1.player
  animationId : t.1.animationId = s.1.animationId
  touchX : t.1.touchX = s.1.touchX
  pending : t.2.pending = s.2.pending
  nextId : t.2.nextId = s.2.nextId
  calls : ∃ l, t.2.calls = s.2.calls ++ l ∧ ∀ c ∈ l, ∃ v, c = UiCall.setScore v

theorem PassRel.refl (s : Game × Host) : PassRel s s :=
  ⟨⟨0, by simp⟩, rfl, rfl, rfl, rfl, rfl, ⟨[], by simp⟩⟩

theorem PassRel.trans {s t u : Game × Host} (h1 : PassRel s t) (h2 : PassRel t u) :
    PassRel s u := by
  obtain ⟨k1, a1, b1, c1⟩ := h1.removed
  obtain ⟨k2, a2, b2, c2⟩ := h2.removed
  obtain ⟨l1, d1, e1⟩ := h1.calls
  obtain ⟨l2, d2, e2⟩ := h2.calls
  refine ⟨⟨k1 + k2, by omega, by omega, ?_⟩, h2.player.trans h1.player,
    h2.animationId.trans h1.animationId, h2.touchX.trans h1.touchX,
    h2.pending.trans h1.pending,
    h2.nextId.trans h1.nextId, ⟨l1 ++ l2, ?_, ?_⟩⟩
  · rw [c2, c1]; push_cast; ring
  · rw [d2, d1, List.append_assoc]
  · intro c hc
    rcases List.mem_append.1 hc with h | h
    · exact e1 c h
    · exact e2 c h

theorem burst_length (enemy : Enemy) (rand : Nat → ℚ) (r : Nat) :
    (burst enemy rand r).length = 15 := by
  simp [burst]

theorem onPair_rel (rand : Nat → ℚ) (bullet : Bullet) (bIndex : Nat) (enemy : Enemy)
    (eIndex : Nat) (s : Game × Host) (he : eIndex < s.1.enemies.length) :
    PassRel s (onPair rand bullet bIndex enemy eIndex s) := by
  unfold onPair
  split
  · refine ⟨⟨1, ?_, ?_, ?_⟩, rfl, rfl, rfl, rfl, rfl, ⟨_, rfl, ?_⟩⟩
    · simp only [List.length_eraseIdx, he, if_true]; omega
    · simp [burst_length]
    · simp
    · intro c hc
      exact ⟨_, List.mem_singleton.1 hc⟩
  · exact PassRel.refl s

theorem enemiesForEach_rel (rand : Nat → ℚ) (bullet : Bullet) (bIndex : Nat) (n eIndex : Nat)
    (s : Game × Host) : PassRel s (enemiesForEach rand bullet bIndex n eIndex s) := by
  induction n generalizing eIndex s with
  | zero => exact PassRel.refl s
  | succ n ih =>
    unfold enemiesForEach
    split
    · exact ih _ _
    · next enemy hget =>
      have he : eIndex < s.1.enemies.length := by
        rcases List.getElem?_eq_some.1 hget with ⟨h, _⟩
        exact h
      exact (onPair_rel rand bullet bIndex enemy eIndex s he).trans (ih _ _)

theorem bulletsForEach_rel (rand : Nat → ℚ) (n bIndex : Nat) (s : Game × Host) :
    PassRel s (bulletsForEach rand n bIndex s) := by
  induction n generalizing bIndex s with
  | zero => exact PassRel.refl s
  | succ n ih =>
    unfold bulletsForEach
    split
    · exact ih _ _
    · exact (enemiesForEach_rel rand _ bIndex _ 0 s).trans (ih _ _)

theorem collisionPass_rel (rand : Nat → ℚ) (s : Game × Host) :
    PassRel s (collisionPass rand s) :=
  bulletsForEach_rel rand _ 0 s

/-! ## The other steps of a tick -/

theorem updatePlayer_score (canvas : Canvas) (g : Game) :
    (updatePlayer canvas g).score = g.score := by
  unfold updatePlayer; split <;> rfl

theorem autoShoot_score (timestamp : ℚ) (g : Game) : (autoShoot timestamp g).score = g.score := by
  unfold autoShoot; split <;> rfl

theorem autoShoot_player (timestamp : ℚ) (g : Game) :
    (autoShoot timestamp g).player = g.player := by
  unfold autoShoot; split <;> rfl

theorem spawnEnemies_score (canvas : Canvas) (rand : Nat → ℚ) (timestamp : ℚ)
    (s : Game × Host) : (spawnEnemies canvas rand timestamp s).1.score = s.1.score := by
  unfold spawnEnemies; split <;> rfl

theorem spawnEnemies_player (canvas : Canvas) (rand : Nat → ℚ) (timestamp : ℚ)
    (s : Game × Host) : (spawnEnemies canvas rand timestamp s).1.player = s.1.player := by
  unfold spawnEnemies; split <;> rfl

theorem spawnEnemies_calls (canvas : Canvas) (rand : Nat → ℚ) (timestamp : ℚ)
    (s : Game × Host) : (spawnEnemies canvas rand timestamp s).2.calls = s.2.calls := by
  unfold spawnEnemies; split <;> rfl

theorem beforeCollision_score (canvas : Canvas) (rand : Nat → ℚ) (timestamp : ℚ)
    (s : Game × Host) : (beforeCollision canvas rand timestamp s).1.score = s.1.score := by
  simp [beforeCollision, spawnEnemies_score, autoShoot_score, updatePlayer_score]

theorem beforeCollision_player (canvas : Canvas) (rand : Nat → ℚ) (timestamp : ℚ)
    (s : Game × Host) :
    (beforeCollision canvas rand timestamp s).1.player = (updatePlayer canvas s.1).player := by
  simp [beforeCollision, spawnEnemies_player, autoShoot_player]

theorem beforeCollision_calls (canvas : Canvas) (rand : Nat → ℚ) (timestamp : ℚ)
    (s : Game × Host) : (beforeCollision canvas rand timestamp s).2.calls = s.2.calls := by
  simp [beforeCollision, spawnEnemies_calls]

theorem gameLoop_score (canvas : Canvas) (rand : Nat → ℚ) (timestamp : ℚ) (s : Game × Host) :
    (gameLoop canvas rand timestamp s).1.score =
      (afterCollision canvas rand timestamp s).1.score := rfl

theorem gameLoop_enemies (canvas : Canvas) (rand : Nat → ℚ) (timestamp : ℚ) (s : Game × Host) :
    (gameLoop canvas rand timestamp s).1.enemies =
      (afterCollision canvas rand timestamp s).1.enemies := rfl

theorem gameLoop_player (canvas : Canvas) (rand : Nat → ℚ) (timestamp : ℚ) (s : Game × Host) :
    (gameLoop canvas rand timestamp s).1.player = (updatePlayer canvas s.1).player := by
  have h := (collisionPass_rel rand (beforeCollision canvas rand timestamp s)).player
  rw [beforeCollision_player] at h
  exact h

/-- A tick adds `10 * k` to the score for some natural number `k`. -/
theorem gameLoop_score_step (canvas : Canvas) (rand : Nat → ℚ) (timestamp : ℚ)
    (s : Game × Host) :
    ∃ k : ℕ, (gameLoop canvas rand timestamp s).1.score = s.1.score + 10 * (k : ℚ) := by
  obtain ⟨k, _, _, hk⟩ :=
    (collisionPass_rel rand (beforeCollision canvas rand timestamp s)).removed
  exact ⟨k, by rw [gameLoop_score, afterCollision, hk, beforeCollision_score]⟩

theorem updatePlayer_x (canvas : Canvas) (g : Game) (touchX : ℚ) (ht : g.touchX = some touchX) :
    (updatePlayer canvas g).player.x =
      max 0 (min (canvas.width - g.player.width)
        (g.player.x + (touchX - g.player.width / 2 - g.player.x) * (15 / 100))) := by
  unfold updatePlayer; rw [ht]

theorem updatePlayer_width (canvas : Canvas) (g : Game) :
    (updatePlayer canvas g).player.width = g.player.width := by
  unfold updatePlayer; split <;> rfl

theorem updatePlayer_touchX (canvas : Canvas) (g : Game) :
    (updatePlayer canvas g).touchX = g.touchX := by
  unfold updatePlayer; split <;> rfl

theorem gameLoop_touchX (canvas : Canvas) (rand : Nat → ℚ) (timestamp : ℚ) (s : Game × Host) :
    (gameLoop canvas rand timestamp s).1.touchX = s.1.touchX := by
  have h := (collisionPass_rel rand (beforeCollision canvas rand timestamp s)).touchX
  have h2 : (beforeCollision canvas rand timestamp s).1.touchX = s.1.touchX := by
    simp only [beforeCollision]
    unfold spawnEnemies autoShoot
    split <;> split <;> simp [updatePlayer_touchX]
  exact h.trans h2

/-- One pursuit step without the clamp: when the player and the centred target
both lie in the allowed range, the clamp of line 119 changes nothing. -/
theorem updatePlayer_pursuit (canvas : Canvas) (g : Game) (touchX : ℚ)
    (ht : g.touchX = some touchX) (hx0 : 0 ≤ g.player.x)
    (hx1 : g.player.x ≤ canvas.width - g.player.width)
    (hg0 : 0 ≤ touchX - g.player.width / 2)
    (hg1 : touchX - g.player.width / 2 ≤ canvas.width - g.player.width) :
    (updatePlayer canvas g).player.x =
      g.player.x + (15 / 100) * (touchX - g.player.width / 2 - g.player.x) := by
  rw [updatePlayer_x canvas g touchX ht]
  rw [min_eq_right (by linarith), max_eq_right (by linarith)]
  ring

/-- The error after `i` ticks of a run with a fixed canvas and pointer. -/
theorem runTicks_pursuit (canvas : Canvas) (touchX : ℚ)
    (ticks : List (Canvas × (Nat → ℚ) × ℚ)) (hc : ∀ t ∈ ticks, t.1 = canvas) :
    ∀ (s : Game × Host), s.1.touchX = some touchX → 0 ≤ s.1.player.x →
      s.1.player.x ≤ canvas.width - s.1.player.width →
      0 ≤ touchX - s.1.player.width / 2 →
      touchX - s.1.player.width / 2 ≤ canvas.width - s.1.player.width →
      ∀ (i : Nat) (u : Game × Host), (runTicks ticks s)[i]? = some u →
        touchX - s.1.player.width / 2 - u.1.player.x =
          (85 / 100) ^ i * (touchX - s.1.player.width / 2 - s.1.player.x) := by
  induction ticks with
  | nil =>
    intro s _ _ _ _ _ i u hu
    cases i with
    | zero => simp [runTicks] at hu; subst hu; simp
    | succ i => simp [runTicks] at hu
  | cons t rest ih =>
    intro s ht hx0 hx1 hg0 hg1 i u hu
    obtain ⟨c, rand, timestamp⟩ := t
    have hceq : c = canvas := hc (c, rand, timestamp) (List.mem_cons_self _ _)
    subst hceq
    cases i with
    | zero => simp [runTicks] at hu; subst hu; simp
    | succ i =>
      simp only [runTicks, List.getElem?_cons_succ] at hu
      have hstep := updatePlayer_pursuit c s.1 touchX ht hx0 hx1 hg0 hg1
      have hp := gameLoop_player c rand timestamp s
      have hw : (gameLoop c rand timestamp s).1.player.width = s.1.player.width := by
        rw [hp, updatePlayer_width]
      have hxn : (gameLoop c rand timestamp s).1.player.x =
          s.1.player.x + (15 / 100) * (touchX - s.1.player.width / 2 - s.1.player.x) := by
        rw [hp, hstep]
      have h := ih (fun t ht => hc t (List.mem_cons_of_mem _ ht))
        (gameLoop c rand timestamp s)
        (by rw [gameLoop_touchX]; exact ht)
        (by rw [hxn]; nlinarith)
        (by rw [hxn, hw]; nlinarith)
        (by rw [hw]; exact hg0)
        (by rw [hw]; exact hg1) i u hu
      rw [hw, hxn] at h
      rw [h, pow_succ]
      ring

theorem cancelAnimationFrame_calls (id : Option Nat) (h : Host) :
    (cancelAnimationFrame id h).calls = h.calls := by
  unfold cancelAnimationFrame; split <;> rfl

/-- The calls of the player-enemy check: both signals are made for each enemy
that overlaps the player, and nothing else. -/
theorem playerCollision_calls (g : Game) (enemies : List Enemy) (h : Host) :
    ∃ l, (playerCollision g enemies h).calls = h.calls ++ l ∧
      (UiCall.setGameOver true ∈ l ↔ ∃ e ∈ enemies, playerHits g.player e = true) ∧
      (UiCall.setStarted false ∈ l ↔ ∃ e ∈ enemies, playerHits g.player e = true) := by
  induction enemies generalizing h with
  | nil => exact ⟨[], by simp [playerCollision]⟩
  | cons e rest ih =>
    unfold playerCollision
    split
    · next hit =>
      obtain ⟨l, hl, h1, h2⟩ := ih (cancelAnimationFrame g.animationId
        { h with calls := h.calls ++ [UiCall.setGameOver true, UiCall.setStarted false] })
      refine ⟨[UiCall.setGameOver true, UiCall.setStarted false] ++ l, ?_, ?_, ?_⟩
      · rw [hl, cancelAnimationFrame_calls, List.append_assoc]
      · simp [hit]
      · simp [hit]
    · next miss =>
      obtain ⟨l, hl, h1, h2⟩ := ih h
      refine ⟨l, hl, ?_, ?_⟩
      · rw [h1]; simp [miss]
      · rw [h2]; simp [miss]

theorem playerHits_iff (p : Player) (e : Enemy) :
    playerHits p e = true ↔
      (p.x < e.x + e.width ∧ p.x + p.width > e.x ∧ p.y < e.y + e.height ∧
        p.y + p.height > e.y) := by
  simp [playerHits, and_assoc]

/-! ## Claims -/

/-- C1. A tick never lowers `game.score`, and what it adds is `10 * k` for a
natural number `k`; so along any run of ticks every state and the next one are
in this relation. -/
theorem score_monotone_multiple_of_ten :
    (∀ (canvas : Canvas) (rand : Nat → ℚ) (timestamp : ℚ) (s : Game × Host),
      s.1.score ≤ (gameLoop canvas rand timestamp s).1.score ∧
      ∃ k : ℕ, (gameLoop canvas rand timestamp s).1.score - s.1.score = 10 * (k : ℚ)) ∧
    (∀ (ticks : List (Canvas × (Nat → ℚ) × ℚ)) (s : Game × Host),
      List.Chain' (fun a b : Game × Host =>
        a.1.score ≤ b.1.score ∧ ∃ k : ℕ, b.1.score - a.1.score = 10 * (k : ℚ))
        (runTicks ticks s)) := by
  have step : ∀ (canvas : Canvas) (rand : Nat → ℚ) (timestamp : ℚ) (s : Game × Host),
      s.1.score ≤ (gameLoop canvas rand timestamp s).1.score ∧
      ∃ k : ℕ, (gameLoop canvas rand timestamp s).1.score - s.1.score = 10 * (k : ℚ) := by
    intro canvas rand timestamp s
    obtain ⟨k, hk⟩ := gameLoop_score_step canvas rand timestamp s
    refine ⟨?_, k, ?_⟩
    · rw [hk]
      have : (0 : ℚ) ≤ 10 * (k : ℚ) := by positivity
      linarith
    · rw [hk]; ring
  refine ⟨step, ?_⟩
  intro ticks
  induction ticks with
  | nil => intro s; simp [runTicks]
  | cons t rest ih =>
    intro s
    obtain ⟨canvas, rand, timestamp⟩ := t
    have h := ih (gameLoop canvas rand timestamp s)
    simp only [runTicks]
    refine List.Chain'.cons' h ?_
    intro y hy
    cases rest with
    | nil =>
      simp [runTicks] at hy
      subst hy
      exact step canvas rand timestamp s
    | cons t2 rest2 =>
      obtain ⟨c2, r2, ts2⟩ := t2
      simp [runTicks] at hy
      subst hy
      exact step canvas rand timestamp s

/-- C2. The bullet-enemy collision pass removes `k` enemies (the list never
grows), and then `game.particles` is longer by exactly `15 * k` and `game.score`
higher by exactly `10 * k`. -/
theorem collisionPass_particles_and_score (rand : Nat → ℚ) (s : Game × Host) :
    (collisionPass rand s).1.enemies.length ≤ s.1.enemies.length ∧
    (collisionPass rand s).1.particles.length =
      s.1.particles.length +
        15 * (s.1.enemies.length - (collisionPass rand s).1.enemies.length) ∧
    (collisionPass rand s).1.score =
      s.1.score +
        10 * ((s.1.enemies.length - (collisionPass rand s).1.enemies.length : ℕ) : ℚ) := by
  obtain ⟨k, h1, h2, h3⟩ := (collisionPass_rel rand s).removed
  have hk : s.1.enemies.length - (collisionPass rand s).1.enemies.length = k := by omega
  refine ⟨by omega, ?_, ?_⟩
  · rw [hk, h2]
  · rw [hk, h3]

/-- C3. When the canvas is at least as wide as the player (width 40 in the
source) and `touchX` is set, the player-update step, and so the whole tick,
leaves `0 ≤ player.x ≤ canvas.width - player.width`, whatever the previous
`player.x` and `touchX` are. -/
theorem player_clamp_invariant (canvas : Canvas) (rand : Nat → ℚ) (timestamp : ℚ)
    (g : Game) (h : Host) (touchX : ℚ)
    (hW : g.player.width ≤ canvas.width) (ht : g.touchX = some touchX) :
    (0 ≤ (updatePlayer canvas g).player.x ∧
      (updatePlayer canvas g).player.x ≤ canvas.width - (updatePlayer canvas g).player.width) ∧
    (0 ≤ (gameLoop canvas rand timestamp (g, h)).1.player.x ∧
      (gameLoop canvas rand timestamp (g, h)).1.player.x ≤
        canvas.width - (gameLoop canvas rand timestamp (g, h)).1.player.width) := by
  have key : 0 ≤ (updatePlayer canvas g).player.x ∧
      (updatePlayer canvas g).player.x ≤ canvas.width - (updatePlayer canvas g).player.width := by
    rw [updatePlayer_width, updatePlayer_x canvas g touchX ht]
    refine ⟨le_max_left _ _, max_le (by linarith) (min_le_left _ _)⟩
  refine ⟨key, ?_⟩
  rw [gameLoop_player]
  exact key

/-- The clamp at a far out-of-range input: `player.x = -500`, `touchX = 1000000`
on the 400 wide canvas. -/
theorem player_clamp_invariant_witness :
    (0 ≤ (updatePlayer canvas400 (gameAt (-500) 1000000)).player.x ∧
      (updatePlayer canvas400 (gameAt (-500) 1000000)).player.x ≤
        canvas400.width - (updatePlayer canvas400 (gameAt (-500) 1000000)).player.width) ∧
    (0 ≤ (gameLoop canvas400 (fun _ => 1 / 2) 16 (gameAt (-500) 1000000, host0)).1.player.x ∧
      (gameLoop canvas400 (fun _ => 1 / 2) 16 (gameAt (-500) 1000000, host0)).1.player.x ≤
        canvas400.width -
          (gameLoop canvas400 (fun _ => 1 / 2) 16 (gameAt (-500) 1000000, host0)).1.player.width) :=
  player_clamp_invariant canvas400 (fun _ => 1 / 2) 16 (gameAt (-500) 1000000) host0 1000000
    (by norm_num [gameAt, initialGame, canvas400]) rfl

/-- C4, as stated, fails at `t = T + 200`: with `lastShot = 0` a tick at
timestamp 200 appends no bullet and leaves `lastShot` at 0. -/
theorem autoShoot_at_exactly_200 :
    (200 : ℚ) ≥ (initialGame canvas400).lastShot + 200 ∧
    (autoShoot 200 (initialGame canvas400)).bullets = (initialGame canvas400).bullets ∧
    (autoShoot 200 (initialGame canvas400)).lastShot ≠ 200 := by
  norm_num [autoShoot, initialGame]

/-- C4, amended. With `lastShot = T`, the shooting step of a tick at timestamp
`t` changes nothing when `t ≤ T + 200`, and appends exactly one bullet and sets
`lastShot` to `t` when `t > T + 200`. -/
theorem autoShoot_gate (t : ℚ) (g : Game) :
    (t ≤ g.lastShot + 200 → autoShoot t g = g) ∧
    (g.lastShot + 200 < t →
      (autoShoot t g).bullets = g.bullets ++ [newBullet g.player] ∧
      (autoShoot t g).lastShot = t) := by
  constructor
  · intro h
    have : ¬ (t - g.lastShot > 200) := by intro h2; linarith
    simp [autoShoot, this]
  · intro h
    have : t - g.lastShot > 200 := by linarith
    simp [autoShoot, this]

/-- The gate at `lastShot = 0`: nothing at timestamp 200, one bullet at 201. -/
theorem autoShoot_gate_witness :
    autoShoot 200 (initialGame canvas400) = initialGame canvas400 ∧
    ((autoShoot 201 (initialGame canvas400)).bullets =
        (initialGame canvas400).bullets ++ [newBullet (initialGame canvas400).player] ∧
      (autoShoot 201 (initialGame canvas400)).lastShot = 201) :=
  ⟨(autoShoot_gate 200 (initialGame canvas400)).1 (by norm_num [initialGame]),
   (autoShoot_gate 201 (initialGame canvas400)).2 (by norm_num [initialGame])⟩

/-- C9. After its motion step a bullet is dropped exactly when `y ≤ -height`,
an enemy exactly when `y ≥ canvas.height + height`, and a particle exactly when
`life ≤ 0`; the others are kept, in order. -/
theorem lifecycle_pruning (canvas : Canvas) (bullets : List Bullet) (enemies : List Enemy)
    (particles : List Particle) :
    updateBullets bullets =
      (bullets.map moveBullet).filter (fun b => !decide (b.y ≤ -b.height)) ∧
    updateEnemies canvas enemies =
      (enemies.map moveEnemy).filter (fun e => !decide (e.y ≥ canvas.height + e.height)) ∧
    updateParticles particles =
      (particles.map moveParticle).filter (fun p => !decide (p.life ≤ 0)) := by
  refine ⟨?_, ?_, ?_⟩
  · induction bullets with
    | nil => rfl
    | cons b rest ih =>
      simp only [updateBullets, List.map_cons, List.filter_cons, ih]
      by_cases h : (moveBullet b).y > -(moveBullet b).height
      · simp [h, not_le.2 h]
      · simp [h, not_lt.1 h]
  · induction enemies with
    | nil => rfl
    | cons e rest ih =>
      simp only [updateEnemies, List.map_cons, List.filter_cons, ih]
      by_cases h : (moveEnemy e).y < canvas.height + (moveEnemy e).height
      · simp [h, not_le.2 h]
      · simp [h, not_lt.1 h]
  · induction particles with
    | nil => rfl
    | cons p rest ih =>
      simp only [updateParticles, List.map_cons, List.filter_cons, ih]
      by_cases h : (moveParticle p).life > 0
      · simp [h, not_le.2 h]
      · simp [h, not_lt.1 h]

/-- C6. The calls a tick makes are appended to the earlier ones, and among
them `setGameOver(true)`, and likewise `setStarted(false)`, occurs if and only
if some enemy that is in `game.enemies` after the bullet-enemy pass of that tick
(which is `game.enemies` at the end of the tick) strictly overlaps the player
rectangle. -/
theorem gameOver_iff_overlap (canvas : Canvas) (rand : Nat → ℚ) (timestamp : ℚ)
    (s : Game × Host) :
    (gameLoop canvas rand timestamp s).2.calls = s.2.calls ++ tickCalls canvas rand timestamp s ∧
    (gameLoop canvas rand timestamp s).1.enemies =
      (afterCollision canvas rand timestamp s).1.enemies ∧
    (gameLoop canvas rand timestamp s).1.player =
      (afterCollision canvas rand timestamp s).1.player ∧
    (UiCall.setGameOver true ∈ tickCalls canvas rand timestamp s ↔
      ∃ e ∈ (afterCollision canvas rand timestamp s).1.enemies,
        (afterCollision canvas rand timestamp s).1.player.x < e.x + e.width ∧
        (afterCollision canvas rand timestamp s).1.player.x +
          (afterCollision canvas rand timestamp s).1.player.width > e.x ∧
        (afterCollision canvas rand timestamp s).1.player.y < e.y + e.height ∧
        (afterCollision canvas rand timestamp s).1.player.y +
          (afterCollision canvas rand timestamp s).1.player.height > e.y) ∧
    (UiCall.setStarted false ∈ tickCalls canvas rand timestamp s ↔
      UiCall.setGameOver true ∈ tickCalls canvas rand timestamp s) := by
  obtain ⟨lp, hlp, honly⟩ :=
    (collisionPass_rel rand (beforeCollision canvas rand timestamp s)).calls
  rw [beforeCollision_calls] at hlp
  obtain ⟨lc, hlc, hover, hstart⟩ := playerCollision_calls
    (afterCollision canvas rand timestamp s).1 (afterCollision canvas rand timestamp s).1.enemies
    (afterCollision canvas rand timestamp s).2
  have hcalls : (gameLoop canvas rand timestamp s).2.calls = s.2.calls ++ (lp ++ lc) := by
    show (playerCollision _ _ _).calls = _
    rw [hlc, afterCollision, hlp, List.append_assoc]
  have htick : tickCalls canvas rand timestamp s = lp ++ lc := by
    rw [tickCalls, hcalls, List.drop_left]
  have hnotOver : UiCall.setGameOver true ∉ lp := by
    intro hmem
    obtain ⟨v, hv⟩ := honly _ hmem
    cases hv
  have hnotStart : UiCall.setStarted false ∉ lp := by
    intro hmem
    obtain ⟨v, hv⟩ := honly _ hmem
    cases hv
  refine ⟨by rw [hcalls, htick], rfl, rfl, ?_, ?_⟩
  · rw [htick, List.mem_append, or_iff_right hnotOver, hover]
    constructor
    · rintro ⟨e, he, hit⟩
      exact ⟨e, he, (playerHits_iff _ e).1 hit⟩
    · rintro ⟨e, he, hit⟩
      exact ⟨e, he, (playerHits_iff _ e).2 hit⟩
  · rw [htick, List.mem_append, List.mem_append, or_iff_right hnotOver,
      or_iff_right hnotStart, hover, hstart]

/-- C8. With player width 40, `player.x` in `[0, W - 40]` and the centred
target `g = touchX - 20` in `[0, W - 40]`, one player-update step gives
`x + 0.15 * (g - x)`, the error becomes `0.85` times what it was, and after `i`
ticks of any run on that canvas the error is `0.85 ^ i` times the first one: it
keeps its sign and never grows, so the player never passes the target. -/
theorem damped_pursuit (canvas : Canvas) (g : Game) (h : Host) (touchX : ℚ)
    (hw : g.player.width = 40) (ht : g.touchX = some touchX)
    (hx0 : 0 ≤ g.player.x) (hx1 : g.player.x ≤ canvas.width - 40)
    (hg0 : 0 ≤ touchX - 20) (hg1 : touchX - 20 ≤ canvas.width - 40) :
    (updatePlayer canvas g).player.x = g.player.x + (15 / 100) * (touchX - 20 - g.player.x) ∧
    touchX - 20 - (updatePlayer canvas g).player.x = (85 / 100) * (touchX - 20 - g.player.x) ∧
    ∀ (ticks : List (Canvas × (Nat → ℚ) × ℚ)), (∀ t ∈ ticks, t.1 = canvas) →
      ∀ (i : Nat) (u : Game × Host), (runTicks ticks (g, h))[i]? = some u →
        touchX - 20 - u.1.player.x = (85 / 100) ^ i * (touchX - 20 - g.player.x) ∧
        (g.player.x ≤ touchX - 20 → u.1.player.x ≤ touchX - 20) ∧
        (touchX - 20 ≤ g.player.x → touchX - 20 ≤ u.1.player.x) ∧
        |touchX - 20 - u.1.player.x| ≤ |touchX - 20 - g.player.x| := by
  have hhalf : g.player.width / 2 = 20 := by rw [hw]; norm_num
  have hstep := updatePlayer_pursuit canvas g touchX ht hx0 (by rw [hw]; exact hx1)
    (by rw [hhalf]; exact hg0) (by rw [hhalf, hw]; exact hg1)
  rw [hhalf] at hstep
  refine ⟨hstep, by rw [hstep]; ring, ?_⟩
  intro ticks hc i u hu
  have hrun := runTicks_pursuit canvas touchX ticks hc (g, h) ht hx0 (by rw [hw]; exact hx1)
    (by rw [hhalf]; exact hg0) (by rw [hhalf, hw]; exact hg1) i u hu
  simp only [hhalf] at hrun
  have hpow0 : (0 : ℚ) ≤ (85 / 100) ^ i := by positivity
  have hpow1 : ((85 : ℚ) / 100) ^ i ≤ 1 := pow_le_one₀ (by norm_num) (by norm_num)
  refine ⟨hrun, ?_, ?_, ?_⟩
  · intro hle
    have : 0 ≤ (85 / 100 : ℚ) ^ i * (touchX - 20 - g.player.x) :=
      mul_nonneg hpow0 (by linarith)
    linarith
  · intro hle
    have : (85 / 100 : ℚ) ^ i * (touchX - 20 - g.player.x) ≤ 0 :=
      mul_nonpos_of_nonneg_of_nonpos hpow0 (by linarith)
    linarith
  · rw [hrun, abs_mul, abs_of_nonneg hpow0]
    exact mul_le_of_le_one_left (abs_nonneg _) hpow1

/-- The scenario `x = 100`, `W = 400`, `touchX = 300`: one step gives 127. -/
theorem damped_pursuit_witness :
    (updatePlayer canvas400 (gameAt 100 300)).player.x = 127 := by
  have h := (damped_pursuit canvas400 (gameAt 100 300) host0 300 rfl rfl
    (by norm_num [gameAt]) (by norm_num [gameAt, canvas400]) (by norm_num)
    (by norm_num [canvas400])).1
  rw [h]
  norm_num [gameAt]

/-- C5, at a failing input. In `skipGame` the first bullet hits the second
enemy; the splice moves the second bullet to index 0, which the outer loop has
already passed, so it is never tested: after the pass `bulletLow` and
`enemyLow` both remain and overlap. -/
theorem collisionPass_leaves_overlap :
    (collisionPass (fun _ => 1 / 2) (skipGame, host0)).1.bullets = [bulletLow] ∧
    (collisionPass (fun _ => 1 / 2) (skipGame, host0)).1.enemies = [enemyLow] ∧
    hits bulletLow enemyLow = true := by
  simp [collisionPass, bulletsForEach, enemiesForEach, onPair, hits, skipGame, initialGame,
    bulletHigh, bulletLow, enemyLow, enemyHigh]
  norm_num

/-- C7, at a failing input. In `crashGame` the enemy reaches the player, the
tick calls `setGameOver(true)`, and it still ends with a fresh animation-frame
request (identifier 2) pending and stored in `game.animationId`. -/
theorem gameOver_tick_reschedules :
    UiCall.setGameOver true ∈ tickCalls canvas400 (fun _ => 1 / 2) 16 (crashGame, host0) ∧
    (gameLoop canvas400 (fun _ => 1 / 2) 16 (crashGame, host0)).2.pending = [2] ∧
    (gameLoop canvas400 (fun _ => 1 / 2) 16 (crashGame, host0)).1.animationId = some 2 := by
  have hb : beforeCollision canvas400 (fun _ => 1 / 2) 16 (crashGame, host0) =
      ({ crashGame with enemies := [moveEnemy crashEnemy] }, host0) := by
    simp [beforeCollision, updatePlayer, autoShoot, spawnEnemies, crashGame, initialGame, host0]
    norm_num [updateBullets, updateEnemies, moveEnemy, crashEnemy, canvas400]
  have ha : afterCollision canvas400 (fun _ => 1 / 2) 16 (crashGame, host0) =
      ({ crashGame with enemies := [moveEnemy crashEnemy] }, host0) := by
    rw [afterCollision, hb]
    simp [collisionPass, bulletsForEach, crashGame, initialGame]
  simp only [tickCalls, gameLoop, ha]
  simp [playerCollision, playerHits, cancelAnimationFrame, requestAnimationFrame, crashGame,
    initialGame, moveEnemy, crashEnemy, canvas400, host0]
  norm_num

/-- C10, at a failing input. In `doubleGame` the first bullet overlaps two
enemies; its second hit splices index 0 again, where `bulletB` now stands, so
`bulletB` is removed although it overlaps none of the enemies of the pass. -/
theorem collisionPass_removes_unhit_bullet :
    bulletB ∈ doubleGame.bullets ∧
    (collisionPass (fun _ => 1 / 2) (doubleGame, host0)).1.bullets = [] ∧
    (collisionPass (fun _ => 1 / 2) (doubleGame, host0)).1.enemies = [enemyB] ∧
    ∀ e ∈ doubleGame.enemies, hits bulletB e = false := by
  simp [collisionPass, bulletsForEach, enemiesForEach, onPair, hits, doubleGame, initialGame,
    bulletA, bulletB, enemyA, enemyB, enemyC]
  norm_num

end Shooter
